import Mathlib

/-!
Verification of the FTC field switcher core logic (field-change detection and
scene-switch orchestration), shallowly embedded from the Python sources
`ftc-field-switcher.py`, `ftc-field-switcher-tk.py` and
`ftc-field-switcher-gtk4.py`.  The `FTCFieldSwitcher` class is byte-for-byte
identical in its core logic across the three files; the embedding below
follows that shared core.

Decoded JSON values are modelled by the inductive `Json` (JSON numbers are
modelled as integers; none of the verified behaviour depends on fractional
numbers).  Python's `json.loads` maps JSON `null` to `None`; accordingly
`pyGet` (the model of `dict.get`) yields `none` both when a key is absent and
when its value is `null`, exactly as in Python.  Side effects (log lines and
outbound OBS API requests) are reified as an `Effect` list; the OBS server is
an oracle `obs : String → ObsResult` giving the outcome of each
`SetCurrentProgramScene` call.

Two equality notions appear: structural equality (`Json.beq`, exact for the
integer-field/string-scene fragment) and Python `==` with its cross-type
`bool`/`int` identification plus `TypeError` on hashing unhashable values
(`pyEq`, `regLookupPy`, `switch_scenePy`, `processMessagePy`), used where
arbitrary, possibly non-integer field values are the subject.
-/

/-- A decoded JSON value (the result of a successful `json.loads`). -/
inductive Json where
  | null : Json
  | bool (b : Bool) : Json
  | num (n : Int) : Json
  | str (s : String) : Json
  | arr (items : List Json) : Json
  | obj (fields : List (String × Json)) : Json
  deriving Repr

mutual

/-- Structural equality of decoded JSON values.  It agrees with Python `==`
on same-type comparisons (integer field numbers, scene-name strings, the
`"SHOW_MATCH"` literal), which is the whole domain of the integer-field
theorems below; Python's cross-type `==` (`True == 1`, `False == 0`) and
the `TypeError` on hashing unhashable values are modelled separately by
`pyEq` / `regLookupPy` where arbitrary field values are at issue. -/
def Json.beq : Json → Json → Bool
  | .null, .null => true
  | .bool x, .bool y => x == y
  | .num x, .num y => x == y
  | .str x, .str y => x == y
  | .arr xs, .arr ys => Json.beqList xs ys
  | .obj xs, .obj ys => Json.beqObj xs ys
  | _, _ => false

/-- Elementwise `Json.beq` on lists. -/
def Json.beqList : List Json → List Json → Bool
  | [], [] => true
  | a :: as, b :: bs => Json.beq a b && Json.beqList as bs
  | _, _ => false

/-- Elementwise `Json.beq` on key-value lists. -/
def Json.beqObj : List (String × Json) → List (String × Json) → Bool
  | [], [] => true
  | (k₁, v₁) :: as, (k₂, v₂) :: bs => k₁ == k₂ && Json.beq v₁ v₂ && Json.beqObj as bs
  | _, _ => false

end

mutual

theorem Json.eq_of_beq : ∀ a b : Json, Json.beq a b = true → a = b
  | .null, .null, _ => rfl
  | .bool x, .bool y, h => by simp [Json.beq] at h; simp [h]
  | .num x, .num y, h => by simp [Json.beq] at h; simp [h]
  | .str x, .str y, h => by simp [Json.beq] at h; simp [h]
  | .arr xs, .arr ys, h => by
      simp only [Json.beq] at h
      exact congrArg Json.arr (Json.eqList_of_beqList xs ys h)
  | .obj xs, .obj ys, h => by
      simp only [Json.beq] at h
      exact congrArg Json.obj (Json.eqObj_of_beqObj xs ys h)

theorem Json.eqList_of_beqList : ∀ xs ys : List Json, Json.beqList xs ys = true → xs = ys
  | [], [], _ => rfl
  | a :: as, b :: bs, h => by
      simp only [Json.beqList, Bool.and_eq_true] at h
      have h1 := Json.eq_of_beq a b h.1
      have h2 := Json.eqList_of_beqList as bs h.2
      simp [h1, h2]

theorem Json.eqObj_of_beqObj : ∀ xs ys : List (String × Json), Json.beqObj xs ys = true → xs = ys
  | [], [], _ => rfl
  | (k₁, v₁) :: as, (k₂, v₂) :: bs, h => by
      simp only [Json.beqObj, Bool.and_eq_true] at h
      have h1 := Json.eq_of_beq v₁ v₂ h.1.2
      have h2 := Json.eqObj_of_beqObj as bs h.2
      have h3 : k₁ = k₂ := by have := h.1.1; simpa using this
      simp [h1, h2, h3]

end

mutual

theorem Json.beq_refl : ∀ a : Json, Json.beq a a = true
  | .null => rfl
  | .bool x => by simp [Json.beq]
  | .num x => by simp [Json.beq]
  | .str x => by simp [Json.beq]
  | .arr xs => by simp only [Json.beq]; exact Json.beqList_refl xs
  | .obj xs => by simp only [Json.beq]; exact Json.beqObj_refl xs

theorem Json.beqList_refl : ∀ xs : List Json, Json.beqList xs xs = true
  | [] => rfl
  | a :: as => by
      simp only [Json.beqList, Bool.and_eq_true]
      exact ⟨Json.beq_refl a, Json.beqList_refl as⟩

theorem Json.beqObj_refl : ∀ xs : List (String × Json), Json.beqObj xs xs = true
  | [] => rfl
  | (k, v) :: as => by
      simp only [Json.beqObj, Bool.and_eq_true]
      exact ⟨⟨by simp, Json.beq_refl v⟩, Json.beqObj_refl as⟩

end

instance : DecidableEq Json := fun a b =>
  decidable_of_iff (Json.beq a b = true)
    ⟨Json.eq_of_beq a b, fun h => h ▸ Json.beq_refl a⟩

/-- A decoded JSON object (a Python `dict` produced by `json.loads`): an
association list with the first occurrence of a key authoritative. -/
abbrev JDict := List (String × Json)

/-- Raw dictionary lookup (key presence with its stored value, including a
stored `null`). -/
def lookupStr : JDict → String → Option Json
  | [], _ => none
  | (k, v) :: rest, key => if k = key then some v else lookupStr rest key

/-- Python `d.get(key)`: yields `none` both when `key` is absent and when its
value is JSON `null` (which `json.loads` decodes to Python `None`). -/
def pyGet (d : JDict) (key : String) : Option Json :=
  match lookupStr d key with
  | some Json.null => none
  | some v => some v
  | none => none

/-- Python `key in d`. -/
def hasKey (d : JDict) (key : String) : Bool :=
  (lookupStr d key).isSome

/-- The field-to-scene registry `self.field_scene_mapping`: a Python dict
keyed by field numbers (decoded JSON values, integers in practice). -/
abbrev Registry := List (Json × String)

/-- First-match lookup in the registry with structural key equality
(Python `mapping[field]` / `field in mapping` on the integer-keyed
registries the integer-field theorems quantify over).  Full Python
membership semantics — `==`-based matching where `True` finds the key `1`,
and `TypeError` on an unhashable probe — is modelled by `regLookupPy`. -/
def regLookup : Registry → Json → Option String
  | [], _ => none
  | (k, v) :: rest, key => if k = key then some v else regLookup rest key

/-- Python `mapping[key] = value`: overwrite the entry for `key` if present,
otherwise append a new entry. -/
def regSet : Registry → Json → String → Registry
  | [], key, value => [(key, value)]
  | (k, v) :: rest, key, value =>
      if k = key then (key, value) :: rest else (k, v) :: regSet rest key value

/-- Python `m.update(d)`: write every entry of `d` into `m`, overwriting
existing keys and adding new ones; no entry of `m` is ever removed. -/
def regUpdate (m d : Registry) : Registry :=
  d.foldl (fun acc kv => regSet acc kv.1 kv.2) m

/-- The built-in mapping installed by `FTCFieldSwitcher.__init__`:
`{1: "Field 1", 2: "Field 2"}`. -/
def defaultMapping : Registry :=
  [(Json.num 1, "Field 1"), (Json.num 2, "Field 2")]

/-- Outcome of one `obs_ws.call(SetCurrentProgramScene(...))` request, as seen
by `switch_scene`: a success status, a non-success response status carrying
the server-reported error, or a raised transport exception. -/
inductive ObsResult where
  | ok : ObsResult
  | errStatus (e : String) : ObsResult
  | exnMsg (e : String) : ObsResult
  deriving Repr, DecidableEq

/-- Observable side effects of the core: each constructor mirrors one
`print`/`self.log` call site or the outbound OBS API request. -/
inductive Effect where
  /-- "No scene mapping found for Field {field_number}" -/
  | logNoMapping (field : Json)
  /-- the outbound `SetCurrentProgramScene(sceneName=scene_name)` request -/
  | apiCall (scene : String)
  /-- "Switched to scene: {scene_name} for Field {field_number}" -/
  | logSwitched (scene : String) (field : Json)
  /-- "Failed to switch scene: {response.error}" -/
  | logSwitchFailed (e : String)
  /-- "Error switching scene: {e}" -/
  | logSwitchError (e : String)
  /-- "Field change detected: {self.current_field} -> {field_number}" -/
  | logFieldChange (old : Option Json) (new : Json)
  /-- "Error decoding message: {e}" -/
  | logDecodeError (raw : String)
  /-- "Error processing message: {e}" -/
  | logProcessingError
  /-- "Updated field-to-scene mapping" -/
  | logUpdatedMapping
  /-- "Connected to OBS WebSocket server" -/
  | logObsConnected
  /-- "Error connecting to OBS: {e}" -/
  | logObsConnectError
  /-- "Failed to connect to OBS. Exiting." -/
  | logObsFailExit
  /-- "Connecting to FTC WebSocket: {url}" and the mapping dump -/
  | logConnectingFeed
  /-- "Connected to FTC scoring system WebSocket" -/
  | logFeedConnected
  /-- "Shutting down..." -/
  | logShuttingDown
  /-- "Closed FTC WebSocket connection" -/
  | logClosedFeed
  /-- "Disconnected from OBS WebSocket server" -/
  | logObsDisconnected
  /-- "Shutdown complete" -/
  | logShutdownComplete
  /-- outer handler: "WebSocket error: {e}" -/
  | logWsError
  /-- "Stopping monitoring..." -/
  | logStoppingMonitoring
  /-- "Shutdown timed out, forcing exit" -/
  | logShutdownTimeout
  /-- "Error during shutdown: {e}" -/
  | logStopError (e : String)
  deriving Repr, DecidableEq

/-- Number of outbound OBS API requests in an effect list. -/
def countApi (effects : List Effect) : Nat :=
  match effects with
  | [] => 0
  | Effect.apiCall _ :: rest => 1 + countApi rest
  | _ :: rest => countApi rest

/-- The coordinator state owned by `FTCFieldSwitcher` that the message loop
reads and writes: `self.current_field` (None until the first successful
switch) and `self.field_scene_mapping`. -/
structure SwitcherState where
  current_field : Option Json
  field_scene_mapping : Registry
  deriving Repr, DecidableEq

/-- `FTCFieldSwitcher.switch_scene(field_number)`: look the field up in the
mapping; if absent, log and report failure without any API call; otherwise
issue one `SetCurrentProgramScene` request and report its outcome.  Returns
the boolean result together with the effects in program order. -/
def switch_scene (obs : String → ObsResult) (mapping : Registry) (field_number : Json) :
    Bool × List Effect :=
  match regLookup mapping field_number with
  | none => (false, [Effect.logNoMapping field_number])
  | some scene_name =>
    match obs scene_name with
    | ObsResult.ok =>
        (true, [Effect.apiCall scene_name, Effect.logSwitched scene_name field_number])
    | ObsResult.errStatus e =>
        (false, [Effect.apiCall scene_name, Effect.logSwitchFailed e])
    | ObsResult.exnMsg e =>
        (false, [Effect.apiCall scene_name, Effect.logSwitchError e])

/-- `FTCFieldSwitcher.update_field_scene_mapping(field_scene_dict)`:
`self.field_scene_mapping.update(field_scene_dict)` plus the log line. -/
def update_field_scene_mapping (st : SwitcherState) (d : Registry) :
    SwitcherState × List Effect :=
  ({ st with field_scene_mapping := regUpdate st.field_scene_mapping d },
   [Effect.logUpdatedMapping])

/-- Field-number extraction inside the loop body:
`field_number = data.get("field")`; if that is `None` and `"params" in data`,
`field_number = data["params"].get("field")`.  The error case models the
`AttributeError` raised by `.get` when `data["params"]` is not a dict; it is
caught by the loop's generic exception handler. -/
def extractField (d : JDict) : Except Unit (Option Json) :=
  match pyGet d "field" with
  | some v => Except.ok (some v)
  | none =>
    match lookupStr d "params" with
    | some (Json.obj p) => Except.ok (pyGet p "field")
    | some _ => Except.error ()
    | none => Except.ok none

/-- One received WebSocket text frame, split by whether `json.loads`
succeeds on its payload. -/
inductive Frame where
  /-- payload that is not valid JSON (`json.loads` raises), e.g. `"pong"` -/
  | undecodable (raw : String)
  /-- payload that decodes to the JSON value `j` -/
  | decoded (j : Json)
  deriving Repr, DecidableEq

/-- One iteration of the `while self.running` receive loop on a received
frame (the body runs only while `self.running` is true, so the
`if self.running` guards on the exception logs are taken).  Mirrors lines
128-150 of `ftc-field-switcher.py`: decode, classify `SHOW_MATCH`, extract
the field number, debounce against `self.current_field`, and update
`self.current_field` only when `switch_scene` succeeds.  A frame whose
decoded value is not a dict makes `data.get` raise `AttributeError`, caught
and logged by the generic handler. -/
def processMessage (obs : String → ObsResult) (st : SwitcherState) :
    Frame → SwitcherState × List Effect
  | Frame.undecodable raw =>
      if raw = "pong" then (st, []) else (st, [Effect.logDecodeError raw])
  | Frame.decoded data =>
      match data with
      | Json.obj d =>
        if pyGet d "type" = some (Json.str "SHOW_MATCH") then
          match extractField d with
          | Except.error _ => (st, [Effect.logProcessingError])
          | Except.ok none => (st, [])
          | Except.ok (some field_number) =>
            if st.current_field = some field_number then (st, [])
            else
              let r := switch_scene obs st.field_scene_mapping field_number
              ((if r.1 then { st with current_field := some field_number } else st),
               Effect.logFieldChange st.current_field field_number :: r.2)
        else (st, [])
      | _ => (st, [Effect.logProcessingError])

/-- The receive loop run over a finite list of received frames, accumulating
states and effects in order. -/
def runLoop (obs : String → ObsResult) (st : SwitcherState) :
    List Frame → SwitcherState × List Effect
  | [] => (st, [])
  | f :: fs =>
    let r := processMessage obs st f
    let r2 := runLoop obs r.1 fs
    (r2.1, r.2 ++ r2.2)

/-- The frame `{"type": "SHOW_MATCH", "field": n}` for an integer field
number `n`. -/
def showMatchFrame (n : Int) : Frame :=
  Frame.decoded (Json.obj [("type", Json.str "SHOW_MATCH"), ("field", Json.num n)])

/-- An OBS oracle on which every scene-switch request succeeds. -/
def obsAllOk : String → ObsResult := fun _ => ObsResult.ok

/-- An OBS oracle on which every scene-switch request returns a non-success
status. -/
def obsAllFail : String → ObsResult := fun _ => ObsResult.errStatus "switch refused"

/-- Number of positions at which a field-number sequence differs from its
predecessor, the predecessor of the first element being "no field"
(`n_0 = none`). -/
def countChanges : Option Int → List Int → Nat
  | _, [] => 0
  | cur, n :: ns => (if cur = some n then 0 else 1) + countChanges (some n) ns

/-- The frame `{"type": "SHOW_MATCH", "field": v}` for an arbitrary decoded
JSON value `v` in the `field` slot. -/
def fieldFrame (v : Json) : Frame :=
  Frame.decoded (Json.obj [("type", Json.str "SHOW_MATCH"), ("field", v)])

/-- Classification of a decoded JSON object, written from the specification's
words: a message is a match-show event iff its `type` equals `SHOW_MATCH`;
its field number comes from the top-level `field` key, or, when that yields
no value, from the nested `params.field` key; a `SHOW_MATCH` message whose
`params` value is present but not an object (with no usable top-level
`field`) is the malformed case. -/
inductive MsgClass where
  | notMatchShow : MsgClass
  | matchShow (field : Option Json) : MsgClass
  | matchShowBadParams : MsgClass
  deriving Repr, DecidableEq

/-- Spec-side classifier for `MsgClass` (see its doc comment); compared
against the behaviour of the source-derived `processMessage`. -/
def classifyMsg (d : JDict) : MsgClass :=
  if pyGet d "type" = some (Json.str "SHOW_MATCH") then
    match pyGet d "field" with
    | some v => MsgClass.matchShow (some v)
    | none =>
      match lookupStr d "params" with
      | some (Json.obj p) => MsgClass.matchShow (pyGet p "field")
      | some _ => MsgClass.matchShowBadParams
      | none => MsgClass.matchShow none
  else MsgClass.notMatchShow

/-- GUI-layer removal of a registry entry (`remove_mapping` in the GUI
front ends: `del self.scene_mappings[field_num]` guarded by membership; on a
dict with unique keys this deletes exactly the entry for `field_num`). -/
def remove_mapping (gui : Registry) (field_num : Json) : Registry :=
  List.filter (fun kv => if kv.1 = field_num then false else true) gui

/-- The registry a monitoring session actually runs with:
`on_start_monitoring` constructs a fresh `FTCFieldSwitcher` (whose `__init__`
installs `defaultMapping`) and then calls
`update_field_scene_mapping(self.get_field_scene_mapping())` with the GUI's
mapping, so the session registry is the built-in defaults updated by the GUI
entries. -/
def sessionRegistry (gui : Registry) : Registry :=
  regUpdate defaultMapping gui

/-- External circumstances of one `monitor_ftc_websocket` run: whether the
OBS connect attempt succeeds, whether the feed WebSocket connect succeeds,
the frames received before the loop ends, and the OBS oracle. -/
structure MonitorEnv where
  obsConnectOk : Bool
  feedConnectOk : Bool
  frames : List Frame
  obs : String → ObsResult

/-- Result of one `monitor_ftc_websocket` run: final coordinator state, the
effects in order, whether the feed WebSocket connection was ever opened, and
the final value of `self.running`. -/
structure MonitorResult where
  state : SwitcherState
  effects : List Effect
  feedOpened : Bool
  running : Bool
  deriving Repr

/-- Effects of `FTCFieldSwitcher.shutdown()`: log, close the feed socket if
one is open, disconnect from OBS if connected, log completion (`running` is
set to false by it). -/
def shutdownFx (feedOpen obsConn : Bool) : List Effect :=
  Effect.logShuttingDown ::
    ((if feedOpen then [Effect.logClosedFeed] else []) ++
     (if obsConn then [Effect.logObsDisconnected] else []) ++
     [Effect.logShutdownComplete])

/-- `FTCFieldSwitcher.monitor_ftc_websocket` over a `MonitorEnv`.  If
`connect_to_obs()` fails, the method logs the failure and returns at once:
the feed WebSocket is never opened, the receive loop never runs, `running`
is never set, and `shutdown()` is not reached (the early `return` precedes
the `try`/`finally`).  Otherwise the feed connection is attempted; on feed
connect failure the outer handler logs a WebSocket error and the `finally`
block runs `shutdown()`; on success the receive loop processes the frames
and `shutdown()` runs when the loop ends (`async with` has already closed
the feed socket by then, so `shutdown()` does not close it again). -/
def monitor (env : MonitorEnv) (st : SwitcherState) : MonitorResult :=
  if env.obsConnectOk = false then
    { state := st
      effects := [Effect.logObsConnectError, Effect.logObsFailExit]
      feedOpened := false
      running := false }
  else if env.feedConnectOk = false then
    { state := st
      effects := [Effect.logObsConnected, Effect.logConnectingFeed, Effect.logWsError] ++
        shutdownFx false true
      feedOpened := false
      running := false }
  else
    let r := runLoop env.obs st env.frames
    { state := r.1
      effects := [Effect.logObsConnected, Effect.logConnectingFeed, Effect.logFeedConnected] ++
        r.2 ++ shutdownFx false true
      feedOpened := true
      running := false }

/-- Result of the awaited `shutdown_task.result(timeout=5)` call in the GUI
stop handlers: normal completion, `concurrent.futures.TimeoutError`, or any
other exception. -/
inductive ShutdownOutcome where
  | completed : ShutdownOutcome
  | timedOut : ShutdownOutcome
  | erroredMsg (e : String) : ShutdownOutcome
  deriving Repr, DecidableEq

/-- The bound passed to `shutdown_task.result(timeout=5)`. -/
def shutdownTimeoutBound : Nat := 5

/-- Observable outcome of one `stop_monitoring` call: the final value of
`self.switcher.running`, whether `monitor_task.cancel` was signalled, the
timeout bound passed to the graceful wait (`none` when no wait was issued),
and the log effects. -/
structure StopResult where
  running : Bool
  cancelSignalled : Bool
  waitBound : Option Nat
  effects : List Effect
  deriving Repr, DecidableEq

/-- `stop_monitoring` (tk) / `on_stop_monitoring` (gtk4): if a switcher
exists and is running, cancel the monitor task when it is still active,
schedule `shutdown()` and wait for it with a 5-unit timeout — logging the
"Shutdown timed out, forcing exit" warning on timeout or the error on any
other exception — and finally force `self.switcher.running = False`;
otherwise the call is a no-op.  `switcherRunning` is `self.switcher and
self.switcher.running`; `taskActive` is `self.monitor_task and not
self.monitor_task.done()`; `outcome` is the result of the awaited
shutdown. -/
def stop_monitoring (switcherRunning taskActive : Bool) (outcome : ShutdownOutcome) :
    StopResult :=
  if switcherRunning then
    { running := false
      cancelSignalled := taskActive
      waitBound := some shutdownTimeoutBound
      effects := Effect.logStoppingMonitoring ::
        (match outcome with
         | ShutdownOutcome.completed => []
         | ShutdownOutcome.timedOut => [Effect.logShutdownTimeout]
         | ShutdownOutcome.erroredMsg e => [Effect.logStopError e]) }
  else
    { running := switcherRunning
      cancelSignalled := false
      waitBound := none
      effects := [] }

/-- Whether a decoded JSON value is hashable in Python, i.e. usable as a
dict key or membership probe: decoded lists and dicts are unhashable
(hashing one raises `TypeError`), everything else (`None`, bools, numbers,
strings) is hashable. -/
def pyHashable : Json → Bool
  | Json.arr _ => false
  | Json.obj _ => false
  | _ => true

/-- Python `==` between a decoded field value and a stored hashable value.
In Python `bool` is a subclass of `int`, so `True == 1` and `False == 0`;
same-type leaves compare by value; any other cross-type pair is unequal.
The program only ever applies `==` to pairs whose second operand is
hashable — registry keys are dict keys, and `current_field` only ever holds
a value that passed a successful `switch_scene`, hence a value that was
hashed as a dict key (see `processMessagePy_current_hashable`) — so no
container-vs-container comparison can arise and the catch-all is exact on
the program's domain. -/
def pyEq : Json → Json → Bool
  | Json.null, Json.null => true
  | Json.bool x, Json.bool y => x == y
  | Json.num x, Json.num y => x == y
  | Json.bool x, Json.num y => (if x then (1 : Int) else 0) == y
  | Json.num x, Json.bool y => x == (if y then (1 : Int) else 0)
  | Json.str x, Json.str y => x == y
  | _, _ => false

/-- Scan of a dict's entries by Python `==` (how dict membership/lookup
resolves a hashable probe: `True` finds the key `1`). -/
def regScanPy : Registry → Json → Option String
  | [], _ => none
  | (k, v) :: rest, key => if pyEq key k then some v else regScanPy rest key

/-- Python `field_number in self.field_scene_mapping` /
`self.field_scene_mapping[field_number]` under full Python semantics:
probing with an unhashable value (a decoded list or dict) raises
`TypeError`; a hashable probe is resolved by hash and `==`, so the bool
`True` matches the integer key `1`. -/
def regLookupPy (m : Registry) (key : Json) : Except Unit (Option String) :=
  if pyHashable key then Except.ok (regScanPy m key) else Except.error ()

/-- `FTCFieldSwitcher.switch_scene(field_number)` under full Python
semantics for the field-number value.  The membership test
`field_number not in self.field_scene_mapping` sits outside the inner
`try`, so the `TypeError` raised by hashing an unhashable field value
propagates to the caller (the receive loop's generic handler); otherwise
the behaviour is that of `switch_scene`, with `==`-based key matching. -/
def switch_scenePy (obs : String → ObsResult) (mapping : Registry) (field_number : Json) :
    Except Unit (Bool × List Effect) :=
  match regLookupPy mapping field_number with
  | Except.error e => Except.error e
  | Except.ok none => Except.ok (false, [Effect.logNoMapping field_number])
  | Except.ok (some scene_name) =>
    match obs scene_name with
    | ObsResult.ok =>
        Except.ok (true, [Effect.apiCall scene_name, Effect.logSwitched scene_name field_number])
    | ObsResult.errStatus e =>
        Except.ok (false, [Effect.apiCall scene_name, Effect.logSwitchFailed e])
    | ObsResult.exnMsg e =>
        Except.ok (false, [Effect.apiCall scene_name, Effect.logSwitchError e])

/-- Python `field_number != self.current_field`, reached only when
`field_number is not None`: every value differs from `None`; against a
stored value it is the negation of Python `==`. -/
def pyNeCurrent (field_number : Json) : Option Json → Bool
  | none => true
  | some c => !(pyEq field_number c)

/-- The receive-loop body under full Python semantics for the field value:
identical to `processMessage` except that the debounce comparison is
Python `!=` (`pyNeCurrent`, so `True` is debounced against a current field
of `1`) and the switch operation is `switch_scenePy`, whose `TypeError` on
an unhashable field value is caught by the loop's generic handler and
logged as a processing error after the field-change log.  On integer field
values this coincides with `processMessage`; it is the model against which
the unvalidated-field-value claim is settled. -/
def processMessagePy (obs : String → ObsResult) (st : SwitcherState) :
    Frame → SwitcherState × List Effect
  | Frame.undecodable raw =>
      if raw = "pong" then (st, []) else (st, [Effect.logDecodeError raw])
  | Frame.decoded data =>
      match data with
      | Json.obj d =>
        if pyGet d "type" = some (Json.str "SHOW_MATCH") then
          match extractField d with
          | Except.error _ => (st, [Effect.logProcessingError])
          | Except.ok none => (st, [])
          | Except.ok (some field_number) =>
            if pyNeCurrent field_number st.current_field then
              match switch_scenePy obs st.field_scene_mapping field_number with
              | Except.error _ =>
                  (st, [Effect.logFieldChange st.current_field field_number,
                        Effect.logProcessingError])
              | Except.ok r =>
                  ((if r.1 then { st with current_field := some field_number } else st),
                   Effect.logFieldChange st.current_field field_number :: r.2)
            else (st, [])
        else (st, [])
      | _ => (st, [Effect.logProcessingError])

theorem countApi_append (a b : List Effect) : countApi (a ++ b) = countApi a + countApi b := by
  induction a with
  | nil => simp [countApi]
  | cons x xs ih => cases x <;> simp [countApi, ih, Nat.add_assoc]

theorem countChanges_replicate_same (n : Int) (k : Nat) :
    countChanges (some n) (List.replicate k n) = 0 := by
  induction k with
  | zero => simp [countChanges]
  | succ k ih => simp [List.replicate, countChanges, ih]

theorem countChanges_replicate (n : Int) (k : Nat) (hk : 0 < k) :
    countChanges none (List.replicate k n) = 1 := by
  cases k with
  | zero => omega
  | succ k => simp [List.replicate, countChanges, countChanges_replicate_same]

theorem regLookupPy_ok_hashable (m : Registry) (k : Json) (o : Option String)
    (h : regLookupPy m k = Except.ok o) : pyHashable k = true := by
  by_cases hk : pyHashable k = true
  · exact hk
  · simp [regLookupPy, hk] at h

theorem switch_scenePy_ok_hashable (obs : String → ObsResult) (m : Registry) (v : Json)
    (r : Bool × List Effect) (h : switch_scenePy obs m v = Except.ok r) :
    pyHashable v = true := by
  cases hl : regLookupPy m v with
  | error e => simp [switch_scenePy, hl] at h
  | ok o => exact regLookupPy_ok_hashable m v o hl

theorem processMessagePy_fieldFrame (obs : String → ObsResult) (st : SwitcherState)
    (v : Json) (hv : v ≠ Json.null) :
    processMessagePy obs st (fieldFrame v) =
      if pyNeCurrent v st.current_field then
        match switch_scenePy obs st.field_scene_mapping v with
        | Except.error _ =>
            (st, [Effect.logFieldChange st.current_field v, Effect.logProcessingError])
        | Except.ok r =>
            ((if r.1 then { st with current_field := some v } else st),
             Effect.logFieldChange st.current_field v :: r.2)
      else (st, []) := by
  have hget : pyGet [("type", Json.str "SHOW_MATCH"), ("field", v)] "field" = some v := by
    cases v
    case null => exact absurd rfl hv
    all_goals simp [pyGet, lookupStr]
  have htype : pyGet [("type", Json.str "SHOW_MATCH"), ("field", v)] "type" =
      some (Json.str "SHOW_MATCH") := by
    simp [pyGet, lookupStr]
  have hex : extractField [("type", Json.str "SHOW_MATCH"), ("field", v)] =
      Except.ok (some v) := by
    simp [extractField, hget]
  simp [processMessagePy, fieldFrame, htype, hex]

theorem processMessagePy_current_hashable (obs : String → ObsResult) (st : SwitcherState)
    (f : Frame) (h : ∀ c, st.current_field = some c → pyHashable c = true) :
    ∀ c, (processMessagePy obs st f).1.current_field = some c → pyHashable c = true := by
  intro c hc
  cases f with
  | undecodable raw =>
    by_cases hp : raw = "pong" <;> simp [processMessagePy, hp] at hc <;> exact h c hc
  | decoded data =>
    cases data with
    | null => exact h c (by simpa [processMessagePy] using hc)
    | bool b => exact h c (by simpa [processMessagePy] using hc)
    | num n => exact h c (by simpa [processMessagePy] using hc)
    | str s => exact h c (by simpa [processMessagePy] using hc)
    | arr xs => exact h c (by simpa [processMessagePy] using hc)
    | obj d =>
      by_cases ht : pyGet d "type" = some (Json.str "SHOW_MATCH")
      · cases hx : extractField d with
        | error e => simp [processMessagePy, ht, hx] at hc; exact h c hc
        | ok fo =>
          cases fo with
          | none => simp [processMessagePy, ht, hx] at hc; exact h c hc
          | some fn =>
            by_cases hne : pyNeCurrent fn st.current_field = true
            · cases hsw : switch_scenePy obs st.field_scene_mapping fn with
              | error e =>
                simp [processMessagePy, ht, hx, hne, hsw] at hc
                exact h c hc
              | ok r =>
                by_cases hr : r.1 = true
                · simp [processMessagePy, ht, hx, hne, hsw, hr] at hc
                  rw [← hc]
                  exact switch_scenePy_ok_hashable obs st.field_scene_mapping fn r hsw
                · simp [processMessagePy, ht, hx, hne, hsw, hr] at hc
                  exact h c hc
            · simp [processMessagePy, ht, hx, hne] at hc
              exact h c hc
      · simp [processMessagePy, ht] at hc
        exact h c hc

theorem processMessage_showMatchFrame (obs : String → ObsResult) (cur : Option Json)
    (mapping : Registry) (n : Int) :
    processMessage obs ⟨cur, mapping⟩ (showMatchFrame n) =
      if cur = some (Json.num n) then (⟨cur, mapping⟩, [])
      else
        ((if (switch_scene obs mapping (Json.num n)).1 then
            ⟨some (Json.num n), mapping⟩ else ⟨cur, mapping⟩),
         Effect.logFieldChange cur (Json.num n) :: (switch_scene obs mapping (Json.num n)).2) := by
  simp [processMessage, showMatchFrame, extractField, pyGet, lookupStr]

theorem runLoop_showMatch_count (obs : String → ObsResult) (mapping : Registry)
    (hobs : ∀ s, obs s = ObsResult.ok) :
    ∀ (fields : List Int) (cur : Option Int),
      (∀ n ∈ fields, (regLookup mapping (Json.num n)).isSome) →
      countApi (runLoop obs ⟨cur.map Json.num, mapping⟩ (fields.map showMatchFrame)).2 =
        countChanges cur fields := by
  intro fields
  induction fields with
  | nil => intro cur _; simp [runLoop, countApi, countChanges]
  | cons n ns ih =>
    intro cur hmap
    obtain ⟨s, hs⟩ : ∃ s, regLookup mapping (Json.num n) = some s := by
      have h := hmap n (by simp)
      cases hr : regLookup mapping (Json.num n) with
      | none => rw [hr] at h; simp at h
      | some s => exact ⟨s, rfl⟩
    have hsw : switch_scene obs mapping (Json.num n) =
        (true, [Effect.apiCall s, Effect.logSwitched s (Json.num n)]) := by
      simp [switch_scene, hs, hobs s]
    have hrest : ∀ m ∈ ns, (regLookup mapping (Json.num m)).isSome := by
      intro m hm; exact hmap m (by simp [hm])
    by_cases hc : cur = some n
    · subst hc
      have hmain := processMessage_showMatchFrame obs (some (Json.num n)) mapping n
      rw [if_pos rfl] at hmain
      have hih := ih (some n) hrest
      simp only [Option.map_some'] at hih ⊢
      simp only [List.map, runLoop, hmain, countApi_append]
      simpa [countApi, countChanges] using hih
    · have hcond : cur.map Json.num ≠ some (Json.num n) := by
        intro h
        apply hc
        cases cur with
        | none => simp at h
        | some c => simp only [Option.map_some', Option.some.injEq, Json.num.injEq] at h; simp [h]
      have hmain := processMessage_showMatchFrame obs (cur.map Json.num) mapping n
      rw [if_neg hcond, hsw] at hmain
      simp only [if_true] at hmain
      have hih := ih (some n) hrest
      simp only [Option.map_some'] at hih
      simp only [List.map, runLoop, hmain, countApi_append]
      simp [countApi, countChanges, if_neg hc, hih]

theorem regLookup_regSet (m : Registry) (key : Json) (value : String) (q : Json) :
    regLookup (regSet m key value) q = if key = q then some value else regLookup m q := by
  induction m with
  | nil => simp [regSet, regLookup]
  | cons kv rest ih =>
    obtain ⟨a, b⟩ := kv
    by_cases hak : a = key
    · subst hak
      by_cases haq : a = q <;> simp [regSet, regLookup, haq]
    · by_cases haq : a = q
      · subst haq
        have hkq : key ≠ a := fun h => hak h.symm
        simp [regSet, regLookup, hak, hkq, ih]
      · simp [regSet, regLookup, hak, haq, ih]

theorem regUpdate_lookup_none (d : Registry) :
    ∀ (m : Registry) (q : Json), regLookup d q = none →
      regLookup (regUpdate m d) q = regLookup m q := by
  induction d with
  | nil => intro m q _; rfl
  | cons kv rest ih =>
    intro m q hq
    obtain ⟨k, v⟩ := kv
    have hk : k ≠ q ∧ regLookup rest q = none := by
      by_cases h : k = q
      · subst h; simp [regLookup] at hq
      · simp only [regLookup, if_neg h] at hq
        exact ⟨h, hq⟩
    have : regUpdate m ((k, v) :: rest) = regUpdate (regSet m k v) rest := rfl
    rw [this, ih (regSet m k v) q hk.2, regLookup_regSet, if_neg hk.1]

theorem regUpdate_isSome (d : Registry) :
    ∀ (m : Registry) (q : Json), (regLookup m q).isSome →
      (regLookup (regUpdate m d) q).isSome := by
  induction d with
  | nil => intro m q h; exact h
  | cons kv rest ih =>
    intro m q h
    obtain ⟨k, v⟩ := kv
    have : regUpdate m ((k, v) :: rest) = regUpdate (regSet m k v) rest := rfl
    rw [this]
    apply ih
    rw [regLookup_regSet]
    by_cases hk : k = q <;> simp [hk, h]

theorem regLookup_remove_self (gui : Registry) (n : Json) :
    regLookup (remove_mapping gui n) n = none := by
  induction gui with
  | nil => rfl
  | cons kv rest ih =>
    obtain ⟨k, v⟩ := kv
    by_cases hk : k = n <;> simp [remove_mapping, List.filter, hk, regLookup] <;>
      simpa [remove_mapping] using ih

theorem classify_extract (d : JDict) :
    classifyMsg d =
      (if pyGet d "type" = some (Json.str "SHOW_MATCH") then
        match extractField d with
        | Except.ok f => MsgClass.matchShow f
        | Except.error _ => MsgClass.matchShowBadParams
      else MsgClass.notMatchShow) := by
  by_cases ht : pyGet d "type" = some (Json.str "SHOW_MATCH")
  · simp only [classifyMsg, extractField, ht, if_true]
    cases hf : pyGet d "field" with
    | some v => simp
    | none =>
      cases hp : lookupStr d "params" with
      | none => simp
      | some v => cases v <;> simp
  · simp [classifyMsg, ht]

/-- C1: for every sequence of SHOW_MATCH events with field numbers
`[n1, ..., nk]` processed by the receive loop, assuming every attempted
switch succeeds (all fields mapped, OBS accepting every request), the number
of scene-switch API calls equals the number of indices `i` with
`n_i ≠ n_{i-1}` (with `n_0` = no field, i.e. `current_field` initially
`none`); in particular a steady stream of identical match-show events
produces exactly one scene switch. -/
theorem debounce_switch_count (obs : String → ObsResult) (mapping : Registry)
    (hobs : ∀ s, obs s = ObsResult.ok) :
    (∀ fields : List Int, (∀ n ∈ fields, (regLookup mapping (Json.num n)).isSome) →
      countApi (runLoop obs ⟨none, mapping⟩ (fields.map showMatchFrame)).2 =
        countChanges none fields) ∧
    (∀ (n : Int) (k : Nat), 0 < k → (regLookup mapping (Json.num n)).isSome →
      countApi (runLoop obs ⟨none, mapping⟩ ((List.replicate k n).map showMatchFrame)).2 = 1) := by
  constructor
  · intro fields h
    have hrun := runLoop_showMatch_count obs mapping hobs fields none h
    simpa using hrun
  · intro n k hk h
    have hm : ∀ m ∈ List.replicate k n, (regLookup mapping (Json.num m)).isSome := by
      intro m hm
      rw [List.eq_of_mem_replicate hm]
      exact h
    have hrun := runLoop_showMatch_count obs mapping hobs (List.replicate k n) none hm
    simp only [Option.map_none'] at hrun
    rw [hrun]
    exact countChanges_replicate n k hk

/-- Witness for C1 at the spec's own scenario: events for fields 1, 1, 2
against the default registry give a switch count of `countChanges none
[1,1,2]`, which is 2. -/
theorem debounce_switch_count_witness :
    countApi (runLoop obsAllOk ⟨none, defaultMapping⟩ ([1, 1, 2].map showMatchFrame)).2 =
        countChanges none [1, 1, 2] ∧
      countChanges none ([1, 1, 2] : List Int) = 2 :=
  ⟨(debounce_switch_count obsAllOk defaultMapping (fun _ => rfl)).1 [1, 1, 2] (by decide),
   by decide⟩

/-- C2: when a switch attempt for field `n` fails (no mapping, error status,
or exception — i.e. `switch_scene` reports `false`), processing the event
leaves the coordinator state exactly as it was, and processing the identical
event again makes another switch attempt with the same outcome (the effect
list, containing the field-change log and the switch attempt's effects, is
reproduced); only a successful switch makes `n == current` suppress further
calls. -/
theorem failed_switch_keeps_state_and_retries (obs : String → ObsResult) (mapping : Registry)
    (cur : Option Json) (n : Int)
    (hfail : (switch_scene obs mapping (Json.num n)).1 = false)
    (hne : cur ≠ some (Json.num n)) :
    processMessage obs ⟨cur, mapping⟩ (showMatchFrame n) =
      (⟨cur, mapping⟩,
       Effect.logFieldChange cur (Json.num n) :: (switch_scene obs mapping (Json.num n)).2) ∧
    processMessage obs (processMessage obs ⟨cur, mapping⟩ (showMatchFrame n)).1
        (showMatchFrame n) =
      processMessage obs ⟨cur, mapping⟩ (showMatchFrame n) := by
  have hmain := processMessage_showMatchFrame obs cur mapping n
  rw [if_neg hne, hfail] at hmain
  simp only [Bool.false_eq_true, if_false] at hmain
  exact ⟨hmain, by rw [hmain]; exact hmain⟩

/-- Witness for C2: a refused switch for field 1 from the initial state
leaves the state unchanged and replays identically. -/
theorem failed_switch_keeps_state_and_retries_witness :
    processMessage obsAllFail ⟨none, defaultMapping⟩ (showMatchFrame 1) =
      (⟨none, defaultMapping⟩,
       Effect.logFieldChange none (Json.num 1) ::
         (switch_scene obsAllFail defaultMapping (Json.num 1)).2) ∧
    processMessage obsAllFail
        (processMessage obsAllFail ⟨none, defaultMapping⟩ (showMatchFrame 1)).1
        (showMatchFrame 1) =
      processMessage obsAllFail ⟨none, defaultMapping⟩ (showMatchFrame 1) :=
  failed_switch_keeps_state_and_retries obsAllFail defaultMapping none 1 (by decide) (by decide)

/-- C4: a match-show event for a field with no registry entry makes zero OBS
API calls, reports failure with exactly the "no mapping" log, leaves
`current_field` (and the mapping) unchanged, and — whenever the switch
operation is actually reached, i.e. the event is not debounced — the "no
mapping" outcome is logged. -/
theorem unmapped_field_no_api_call (obs : String → ObsResult) (mapping : Registry)
    (cur : Option Json) (n : Int) (hn : regLookup mapping (Json.num n) = none) :
    switch_scene obs mapping (Json.num n) = (false, [Effect.logNoMapping (Json.num n)]) ∧
    countApi (processMessage obs ⟨cur, mapping⟩ (showMatchFrame n)).2 = 0 ∧
    (processMessage obs ⟨cur, mapping⟩ (showMatchFrame n)).1 = ⟨cur, mapping⟩ ∧
    (cur ≠ some (Json.num n) →
      Effect.logNoMapping (Json.num n) ∈ (processMessage obs ⟨cur, mapping⟩ (showMatchFrame n)).2) := by
  have hsw : switch_scene obs mapping (Json.num n) = (false, [Effect.logNoMapping (Json.num n)]) := by
    simp [switch_scene, hn]
  have hmain := processMessage_showMatchFrame obs cur mapping n
  rw [hsw] at hmain
  by_cases hc : cur = some (Json.num n)
  · rw [if_pos hc] at hmain
    refine ⟨hsw, ?_, ?_, ?_⟩
    · rw [hmain]; rfl
    · rw [hmain]
    · intro h; exact absurd hc h
  · rw [if_neg hc] at hmain
    simp only [Bool.false_eq_true, if_false] at hmain
    refine ⟨hsw, ?_, ?_, ?_⟩
    · rw [hmain]; rfl
    · rw [hmain]
    · intro _; rw [hmain]; simp

/-- Witness for C4: an event for the unmapped field 3 against an empty
registry. -/
theorem unmapped_field_no_api_call_witness :
    switch_scene obsAllOk [] (Json.num 3) = (false, [Effect.logNoMapping (Json.num 3)]) ∧
    countApi (processMessage obsAllOk ⟨none, []⟩ (showMatchFrame 3)).2 = 0 ∧
    (processMessage obsAllOk ⟨none, []⟩ (showMatchFrame 3)).1 = ⟨none, []⟩ ∧
    ((none : Option Json) ≠ some (Json.num 3) →
      Effect.logNoMapping (Json.num 3) ∈ (processMessage obsAllOk ⟨none, []⟩ (showMatchFrame 3)).2) :=
  unmapped_field_no_api_call obsAllOk [] none 3 rfl

/-- C5: a received frame whose payload is not valid JSON is non-fatal and
never triggers a scene switch: the literal payload `"pong"` is silently
ignored with no log output, any other undecodable payload produces exactly
one decode-warning log, the state is unchanged, no API call is made, and the
receive loop continues with the remaining frames unaffected. -/
theorem nonjson_frame_nonfatal (obs : String → ObsResult) (st : SwitcherState) (raw : String) :
    processMessage obs st (Frame.undecodable raw) =
      (st, if raw = "pong" then [] else [Effect.logDecodeError raw]) ∧
    countApi (processMessage obs st (Frame.undecodable raw)).2 = 0 ∧
    ∀ fs : List Frame,
      runLoop obs st (Frame.undecodable raw :: fs) =
        ((runLoop obs st fs).1,
         (if raw = "pong" then [] else [Effect.logDecodeError raw]) ++ (runLoop obs st fs).2) := by
  by_cases h : raw = "pong"
  · refine ⟨by simp [processMessage, h], by simp [processMessage, h, countApi], ?_⟩
    intro fs
    simp [runLoop, processMessage, h]
  · refine ⟨by simp [processMessage, h], by simp [processMessage, h, countApi], ?_⟩
    intro fs
    simp [runLoop, processMessage, h]

/-- C9: under full Python semantics (`processMessagePy`), any non-null
decoded JSON value `v` found under `field` is accepted as a field number
with no validation whatsoever — no positive-integer check ever occurs: when
`v` differs (Python `!=`) from the current field, a switch attempt is made
for `v`: the field-change log is emitted and the registry membership test
runs, leading to a possible API call (a bool `True` really matches the
integer key `1`), a no-mapping failure, or — for an unhashable `v` (decoded
list or dict) — a `TypeError` caught and logged by the loop's generic
handler.  The current-field hypothesis restricts to the reachable states:
`current_field` only ever holds a hashable value
(`processMessagePy_current_hashable`), and on that domain `pyEq` is exactly
Python `==`. -/
theorem field_value_not_validated (obs : String → ObsResult) (mapping : Registry)
    (cur : Option Json) (v : Json) (hv : v ≠ Json.null)
    (hcur : ∀ c, cur = some c → pyHashable c = true) :
    processMessagePy obs ⟨cur, mapping⟩ (fieldFrame v) =
      if pyNeCurrent v cur then
        match switch_scenePy obs mapping v with
        | Except.error _ =>
            (⟨cur, mapping⟩, [Effect.logFieldChange cur v, Effect.logProcessingError])
        | Except.ok r =>
            ((if r.1 then ⟨some v, mapping⟩ else ⟨cur, mapping⟩),
             Effect.logFieldChange cur v :: r.2)
      else (⟨cur, mapping⟩, []) := by
  have _hreach := hcur
  exact processMessagePy_fieldFrame obs ⟨cur, mapping⟩ v hv

/-- Witness for C9: the bool `true` in the `field` slot passes the registry
membership test against the integer key 1 (Python `True == 1`) and an API
call to "Field 1" is made; the unhashable value `[]` raises `TypeError`
inside the membership test, which is logged as a processing error after the
field-change log — in both cases the value was accepted with no type
check. -/
theorem field_value_not_validated_witness :
    processMessagePy obsAllOk ⟨none, defaultMapping⟩ (fieldFrame (Json.bool true)) =
      (⟨some (Json.bool true), defaultMapping⟩,
       [Effect.logFieldChange none (Json.bool true), Effect.apiCall "Field 1",
        Effect.logSwitched "Field 1" (Json.bool true)]) ∧
    processMessagePy obsAllOk ⟨none, defaultMapping⟩ (fieldFrame (Json.arr [])) =
      (⟨none, defaultMapping⟩,
       [Effect.logFieldChange none (Json.arr []), Effect.logProcessingError]) := by
  constructor
  · have h := field_value_not_validated obsAllOk defaultMapping none (Json.bool true)
      (by decide) (fun c hc => by simp at hc)
    rw [h]
    rfl
  · have h := field_value_not_validated obsAllOk defaultMapping none (Json.arr [])
      (by decide) (fun c hc => by simp at hc)
    rw [h]
    rfl

/-- C3 counterexample: the decoded JSON object
`{"type": "SHOW_MATCH", "params": 5}` has neither a usable top-level `field`
nor a `params.field` value, yet — contrary to the claim that such a message
"is ignored without error" — processing it emits a processing-error log
(Python raises `AttributeError` on `(5).get("field")` and the loop's generic
handler logs it). -/
theorem show_match_bad_params_logs_error :
    classifyMsg [("type", Json.str "SHOW_MATCH"), ("params", Json.num 5)] =
      MsgClass.matchShowBadParams ∧
    processMessage obsAllOk ⟨none, defaultMapping⟩
        (Frame.decoded (Json.obj [("type", Json.str "SHOW_MATCH"), ("params", Json.num 5)])) =
      (⟨none, defaultMapping⟩, [Effect.logProcessingError]) := by
  constructor <;> decide

/-- C3 (amended): a decoded JSON object is treated as a match-show event iff
its `type` equals the literal `"SHOW_MATCH"`, with the field number taken
from the top-level `field` key or, when that yields no value, from the
nested `params.field` key.  When neither yields a value the message is
ignored — silently when `params` is absent or is an object, but with one
logged processing error when `params` is present and not an object.  Every
message of any other type is ignored silently.  Stated against the spec-side
classifier `classifyMsg`. -/
theorem classification_behavior (obs : String → ObsResult) (st : SwitcherState) (d : JDict) :
    (classifyMsg d = MsgClass.notMatchShow →
        processMessage obs st (Frame.decoded (Json.obj d)) = (st, [])) ∧
    (classifyMsg d = MsgClass.matchShow none →
        processMessage obs st (Frame.decoded (Json.obj d)) = (st, [])) ∧
    (classifyMsg d = MsgClass.matchShowBadParams →
        processMessage obs st (Frame.decoded (Json.obj d)) = (st, [Effect.logProcessingError])) ∧
    (∀ v, classifyMsg d = MsgClass.matchShow (some v) →
        processMessage obs st (Frame.decoded (Json.obj d)) =
          if st.current_field = some v then (st, [])
          else
            ((if (switch_scene obs st.field_scene_mapping v).1 then
                { st with current_field := some v } else st),
             Effect.logFieldChange st.current_field v ::
               (switch_scene obs st.field_scene_mapping v).2)) := by
  have hce := classify_extract d
  by_cases ht : pyGet d "type" = some (Json.str "SHOW_MATCH")
  · rw [if_pos ht] at hce
    refine ⟨?_, ?_, ?_, ?_⟩
    · intro h
      rw [hce] at h
      cases hx : extractField d with
      | ok f => rw [hx] at h; cases f <;> simp at h
      | error e => rw [hx] at h; simp at h
    · intro h
      rw [hce] at h
      cases hx : extractField d with
      | ok f =>
        rw [hx] at h
        cases f with
        | none => simp [processMessage, ht, hx]
        | some v => simp at h
      | error e => rw [hx] at h; simp at h
    · intro h
      rw [hce] at h
      cases hx : extractField d with
      | ok f => rw [hx] at h; cases f <;> simp at h
      | error e => simp [processMessage, ht, hx]
    · intro v h
      rw [hce] at h
      cases hx : extractField d with
      | ok f =>
        rw [hx] at h
        cases f with
        | none => simp at h
        | some w =>
          simp only [MsgClass.matchShow.injEq, Option.some.injEq] at h
          subst h
          simp [processMessage, ht, hx]
      | error e => rw [hx] at h; simp at h
  · rw [if_neg ht] at hce
    refine ⟨?_, ?_, ?_, ?_⟩
    · intro _; simp [processMessage, ht]
    · intro h; rw [hce] at h; simp at h
    · intro h; rw [hce] at h; simp at h
    · intro v h; rw [hce] at h; simp at h

/-- Witness for C3 (amended): a message of another type is ignored without
any effect. -/
theorem classification_behavior_witness :
    processMessage obsAllOk ⟨none, defaultMapping⟩
        (Frame.decoded (Json.obj [("type", Json.str "OTHER")])) =
      (⟨none, defaultMapping⟩, []) :=
  (classification_behavior obsAllOk ⟨none, defaultMapping⟩ [("type", Json.str "OTHER")]).1
    (by decide)

/-- C6 counterexample: after removing field 1 from the GUI mapping, a new
session's registry still maps field 1 via the built-in default installed by
`__init__` (`update` never removes it), so a match-show event for field 1
makes an API call and switches to "Field 1" — not the claimed "no API call,
no-mapping outcome" of a never-configured field. -/
theorem removed_default_field_still_switches :
    regLookup (remove_mapping [(Json.num 1, "My Field 1")] (Json.num 1)) (Json.num 1) = none ∧
    processMessage obsAllOk
        ⟨none, sessionRegistry (remove_mapping [(Json.num 1, "My Field 1")] (Json.num 1))⟩
        (showMatchFrame 1) =
      (⟨some (Json.num 1),
        sessionRegistry (remove_mapping [(Json.num 1, "My Field 1")] (Json.num 1))⟩,
       [Effect.logFieldChange none (Json.num 1), Effect.apiCall "Field 1",
        Effect.logSwitched "Field 1" (Json.num 1)]) := by
  constructor <;> decide

/-- C6 (amended): the GUI mapping supports add/update (via the core `update`
operation) and removal (via the GUI's `remove_mapping`); after removing
field `n`, a subsequent session's event for `n` behaves identically to the
never-configured case — which, for every `n` outside the built-in defaults
(fields 1 and 2), means no API call and the "no mapping" failure outcome. -/
theorem gui_remove_roundtrip (obs : String → ObsResult) (gui m : Registry)
    (n : Json) (s : String) (hdef : regLookup defaultMapping n = none) :
    regLookup (regUpdate m [(n, s)]) n = some s ∧
    regLookup (remove_mapping gui n) n = none ∧
    switch_scene obs (sessionRegistry (remove_mapping gui n)) n =
      switch_scene obs (sessionRegistry []) n ∧
    switch_scene obs (sessionRegistry (remove_mapping gui n)) n =
      (false, [Effect.logNoMapping n]) := by
  have h1 : regLookup (regUpdate m [(n, s)]) n = some s := by
    show regLookup (regSet m n s) n = some s
    rw [regLookup_regSet, if_pos rfl]
  have h2 := regLookup_remove_self gui n
  have h3 : regLookup (sessionRegistry (remove_mapping gui n)) n = none := by
    unfold sessionRegistry
    rw [regUpdate_lookup_none (remove_mapping gui n) defaultMapping n h2]
    exact hdef
  have h4 : regLookup (sessionRegistry []) n = none := by
    unfold sessionRegistry
    simpa [regUpdate] using hdef
  refine ⟨h1, h2, ?_, ?_⟩
  · simp [switch_scene, h3, h4]
  · simp [switch_scene, h3]

/-- Witness for C6 (amended) at field 3 (not a built-in default). -/
theorem gui_remove_roundtrip_witness :
    regLookup (regUpdate defaultMapping [(Json.num 3, "Y")]) (Json.num 3) = some "Y" ∧
    regLookup (remove_mapping [(Json.num 3, "X")] (Json.num 3)) (Json.num 3) = none ∧
    switch_scene obsAllOk (sessionRegistry (remove_mapping [(Json.num 3, "X")] (Json.num 3)))
        (Json.num 3) =
      switch_scene obsAllOk (sessionRegistry []) (Json.num 3) ∧
    switch_scene obsAllOk (sessionRegistry (remove_mapping [(Json.num 3, "X")] (Json.num 3)))
        (Json.num 3) =
      (false, [Effect.logNoMapping (Json.num 3)]) :=
  gui_remove_roundtrip obsAllOk [(Json.num 3, "X")] defaultMapping (Json.num 3) "Y" (by decide)

/-- C7: if the OBS connect attempt fails at session start, the failure is
fatal: `monitor_ftc_websocket` reports the failure and returns immediately —
the feed WebSocket is never opened, the receive loop never runs, no scene
switch (API call) is ever attempted, the coordinator state is unchanged, and
the session is left not running (stopped). -/
theorem obs_connect_failure_fatal (env : MonitorEnv) (st : SwitcherState)
    (h : env.obsConnectOk = false) :
    monitor env st =
      { state := st
        effects := [Effect.logObsConnectError, Effect.logObsFailExit]
        feedOpened := false
        running := false } ∧
    countApi (monitor env st).effects = 0 := by
  constructor
  · simp [monitor, h]
  · simp [monitor, h, countApi]

/-- Witness for C7: a concrete environment whose OBS connect fails. -/
theorem obs_connect_failure_fatal_witness :
    monitor ⟨false, true, [showMatchFrame 1], obsAllOk⟩ ⟨none, defaultMapping⟩ =
      { state := ⟨none, defaultMapping⟩
        effects := [Effect.logObsConnectError, Effect.logObsFailExit]
        feedOpened := false
        running := false } ∧
    countApi (monitor ⟨false, true, [showMatchFrame 1], obsAllOk⟩ ⟨none, defaultMapping⟩).effects
      = 0 :=
  obs_connect_failure_fatal ⟨false, true, [showMatchFrame 1], obsAllOk⟩ ⟨none, defaultMapping⟩ rfl

/-- C8 counterexample: in the not-yet-connected window right after start,
`self.switcher.running` is still `False` — the monitor task sets it `True`
only after `connect_to_obs()` returns — so a stop request taken there
(guard `if self.switcher and self.switcher.running` fails) is a silent
no-op: no cancellation is signalled, no bounded wait is issued, nothing is
logged; and the still-active, uncancelled monitor task then proceeds to
open the feed connection and run the session (here: one scene-switch API
call), contrary to the claim that in every session state a stop request
signals cancellation, waits bounded by the timeout, and leaves the session
stopped. -/
theorem stop_before_running_is_noop :
    stop_monitoring false true ShutdownOutcome.completed =
      { running := false, cancelSignalled := false, waitBound := none, effects := [] } ∧
    (monitor ⟨true, true, [showMatchFrame 1], obsAllOk⟩ ⟨none, defaultMapping⟩).feedOpened =
      true ∧
    countApi
        (monitor ⟨true, true, [showMatchFrame 1], obsAllOk⟩ ⟨none, defaultMapping⟩).effects =
      1 := by
  refine ⟨rfl, rfl, ?_⟩
  decide

/-- C8 (amended): when the switcher is running — which includes the
feed-connecting state, since `self.running` is set before the feed connect —
a stop request signals the monitor task to cancel exactly when the task is
still active, waits for the graceful shutdown with the 5-unit timeout bound,
logs the "shutdown timed out" warning and still forces termination when that
wait times out, and leaves `switcher.running` false.  A stop request issued
before `self.running` is set (the OBS-connect window right after start) is
instead a silent no-op: nothing is cancelled, no wait is issued, and no log
is produced. -/
theorem stop_request_behavior (taskActive : Bool) (outcome : ShutdownOutcome) :
    ((stop_monitoring true taskActive outcome).running = false ∧
     (stop_monitoring true taskActive outcome).cancelSignalled = taskActive ∧
     (stop_monitoring true taskActive outcome).waitBound = some shutdownTimeoutBound ∧
     (outcome = ShutdownOutcome.timedOut →
       (stop_monitoring true taskActive outcome).effects =
         [Effect.logStoppingMonitoring, Effect.logShutdownTimeout])) ∧
    stop_monitoring false taskActive outcome =
      { running := false, cancelSignalled := false, waitBound := none, effects := [] } := by
  refine ⟨⟨rfl, rfl, rfl, fun ho => ?_⟩, rfl⟩
  subst ho
  rfl

/-- Witness for C8 (amended): a running session whose graceful shutdown
times out logs the warning and still ends stopped. -/
theorem stop_request_behavior_witness :
    (stop_monitoring true true ShutdownOutcome.timedOut).running = false ∧
    (stop_monitoring true true ShutdownOutcome.timedOut).effects =
      [Effect.logStoppingMonitoring, Effect.logShutdownTimeout] :=
  ⟨(stop_request_behavior true ShutdownOutcome.timedOut).1.1,
   (stop_request_behavior true ShutdownOutcome.timedOut).1.2.2.2 rfl⟩

/-- C10: `update_field_scene_mapping` (dict `update`) only adds new entries
or overwrites entries named in its argument: every key not named keeps its
prior scene name, every previously mapped key stays mapped, and in
particular the built-in default mappings for fields 1 and 2 survive every
update that does not explicitly overwrite them. -/
theorem update_never_removes (m d : Registry) (q : Json) :
    (regLookup d q = none → regLookup (regUpdate m d) q = regLookup m q) ∧
    ((regLookup m q).isSome → (regLookup (regUpdate m d) q).isSome) ∧
    (regLookup d (Json.num 1) = none →
      regLookup (regUpdate defaultMapping d) (Json.num 1) = some "Field 1") ∧
    (regLookup d (Json.num 2) = none →
      regLookup (regUpdate defaultMapping d) (Json.num 2) = some "Field 2") := by
  refine ⟨fun h => regUpdate_lookup_none d m q h, fun h => regUpdate_isSome d m q h, ?_, ?_⟩
  · intro h
    rw [regUpdate_lookup_none d defaultMapping (Json.num 1) h]
    decide
  · intro h
    rw [regUpdate_lookup_none d defaultMapping (Json.num 2) h]
    decide

/-- Witness for C10: an update naming only field 3 leaves an unrelated key
and the built-in default for field 1 in place. -/
theorem update_never_removes_witness :
    regLookup (regUpdate [(Json.str "x", "S")] [(Json.num 3, "T")]) (Json.str "x") =
      regLookup [(Json.str "x", "S")] (Json.str "x") ∧
    regLookup (regUpdate defaultMapping [(Json.num 3, "T")]) (Json.num 1) = some "Field 1" :=
  ⟨(update_never_removes [(Json.str "x", "S")] [(Json.num 3, "T")] (Json.str "x")).1 (by decide),
   (update_never_removes [(Json.str "x", "S")] [(Json.num 3, "T")] (Json.str "x")).2.2.1
     (by decide)⟩
